import Mathlib

/-!
Verification development for the `SmartBridge` session manager
(`src/SmartBridge.ts` of lutron-leap-js).

The development shallowly embeds the runtime behaviour of the TypeScript
class `SmartBridge`:

* dynamic response bodies become a closed inductive type `MessageBody`
  together with getters that mirror JavaScript truthiness probing of a
  field (`(raw.Body as OneDeviceDefinition).Device` and friends);
* a thrown JavaScript exception becomes an `Except JsError` result, where
  `JsError` distinguishes an explicit `throw new Error(msg)` from the
  `TypeError` produced by accessing a field of `undefined`, and from a
  promise rejection coming out of the transport or a timer;
* the event-handler / timer layer of the class (constructor,
  `_setPingTimeout`, `pingLoop`, `close`, `_handleDisconnect`,
  `_handleUnsolicited`) becomes an explicit state machine `step` over
  `SessionState`, with the `Promise.race` of probe against ping timeout
  modelled by a settle-once in-flight flag.
-/

namespace LutronLeap

/-- Outcome of a JavaScript throw/rejection, as distinguished by the source:
`explicitError m` models `throw new Error(m)`; `typeError` models the
`TypeError` raised by reading a property of `undefined`; `rejection m`
models a promise rejected by the transport or by a timer (for example the
string rejection of the ping timeout). -/
inductive JsError : Type
  | explicitError (msg : String)
  | typeError
  | rejection (msg : String)
  deriving Repr, DecidableEq

/-- Result of an asynchronous JavaScript computation: a value or a thrown
error / rejected promise. -/
abbrev JsOutcome (α : Type) : Type := Except JsError α

instance {ε α : Type} [DecidableEq ε] [DecidableEq α] : DecidableEq (Except ε α) :=
  fun a b =>
    match a, b with
    | .ok x, .ok y => if h : x = y then .isTrue (by rw [h]) else .isFalse (by simp [h])
    | .error e, .error f => if h : e = f then .isTrue (by rw [h]) else .isFalse (by simp [h])
    | .ok _, .error _ => .isFalse (by simp)
    | .error _, .ok _ => .isFalse (by simp)

/-- A navigable reference carried inside a response body (the `href`
objects of the LEAP protocol). -/
structure Href where
  href : String
  deriving Repr, DecidableEq

/-- The firmware description nested inside a device definition; only the
field read by `getBridgeInfo` is modelled. -/
structure Firmware where
  DisplayName : String
  deriving Repr, DecidableEq

/-- Wrapper used by the device tree: `device.FirmwareImage.Firmware`. -/
structure FirmwareImage where
  Firmware : Firmware
  deriving Repr, DecidableEq

/-- The device record of a device-tree response, restricted to the fields
`SmartBridge` reads: firmware display name, model number, fully qualified
name components, serial number, zone references and button-group
references. -/
structure Device where
  FirmwareImage : FirmwareImage
  ModelNumber : String
  FullyQualifiedName : List String
  SerialNumber : String
  LocalZones : List Href
  ButtonGroups : List Href
  deriving Repr, DecidableEq

/-- A resolved button; its contents are opaque to `SmartBridge`, which
only passes it through, so a single name field suffices. -/
structure Button where
  Name : String
  deriving Repr, DecidableEq

/-- A button group: an ordered sequence of button references, each to be
resolved by its own request. -/
structure ButtonGroup where
  Buttons : List Href
  deriving Repr, DecidableEq

/-- A zone status body; only the numeric tilt value is modelled. -/
structure ZoneStatus where
  Tilt : ℚ
  deriving Repr, DecidableEq

/-- The closed set of response-body shapes `SmartBridge` probes for,
plus `unrecognized` for any body carrying none of the expected
discriminant fields. -/
inductive MessageBody : Type
  | oneDevice (Device : Device)
  | multipleDevices (Devices : List Device)
  | oneZoneStatus (ZoneStatus : ZoneStatus)
  | oneButtonGroup (ButtonGroup : ButtonGroup)
  | oneButton (Button : Button)
  | unrecognized
  deriving Repr, DecidableEq

/-- A transport response; `Body` is optional because the source reads it
through the non-null assertion `raw.Body!`. -/
structure Response where
  Body : Option MessageBody
  deriving Repr, DecidableEq

/-- JavaScript probe `(body as OneDeviceDefinition).Device`: the field is
present (truthy) exactly on a single-device body. -/
def MessageBody.deviceField : MessageBody → Option Device
  | .oneDevice d => some d
  | _ => none

/-- JavaScript probe `(body as MultipleDeviceDefinition).Devices`. -/
def MessageBody.devicesField : MessageBody → Option (List Device)
  | .multipleDevices ds => some ds
  | _ => none

/-- JavaScript probe `(body as OneZoneStatus).ZoneStatus`. -/
def MessageBody.zoneStatusField : MessageBody → Option ZoneStatus
  | .oneZoneStatus z => some z
  | _ => none

/-- JavaScript probe `(body as OneButtonGroupDefinition).ButtonGroup`. -/
def MessageBody.buttonGroupField : MessageBody → Option ButtonGroup
  | .oneButtonGroup g => some g
  | _ => none

/-- JavaScript probe `(body as OneButtonDefinition).Button`. -/
def MessageBody.buttonField : MessageBody → Option Button
  | .oneButton b => some b
  | _ => none

/-- The bridge snapshot returned by `getBridgeInfo` (interface
`BridgeInfo` of the source). -/
structure BridgeInfo where
  firmwareRevision : String
  manufacturer : String
  model : String
  name : String
  serialNumber : String
  deriving Repr, DecidableEq

/-- The request kinds `SmartBridge` issues through the client. -/
inductive RequestKind : Type
  | ReadRequest
  | CreateRequest
  deriving Repr, DecidableEq

/-- The command body transmitted by `setBlindsTilt`:
`{ Command: { CommandType: 'GoToTilt', TiltParameters: { Tilt: ... } } }`. -/
structure TiltCommand where
  CommandType : String
  Tilt : ℤ
  deriving Repr, DecidableEq

/-- The observable request issued by `setBlindsTilt` (kind, target href
and command body). -/
structure IssuedRequest where
  kind : RequestKind
  href : String
  command : TiltCommand
  deriving Repr, DecidableEq

/-- `Math.round` of JavaScript on a (finite, non-negative-zero-sensitive)
numeric value: round half towards positive infinity. -/
def jsRound (q : ℚ) : ℤ := ⌊q + 1 / 2⌋

/-! ## Command Layer operations

Each operation is parametrised by the behaviour of
`client.request` — a function from the target href to the outcome the
transport delivers (the request kind is determined by the call site).
A transport error propagates through the `Except` bind exactly as a
rejected promise propagates through `await`. -/

/-- `getBridgeInfo`: one device-tree read of `/device/1`; the body must
carry the single-device discriminant `Device`, otherwise
`throw new Error('Got bad response to bridge info request')`.
A missing body makes the probe itself a `TypeError` read of `undefined`. -/
def getBridgeInfo (request : String → JsOutcome Response) : JsOutcome BridgeInfo := do
  let raw ← request "/device/1"
  match raw.Body with
  | none => .error .typeError
  | some body =>
    match body.deviceField with
    | some device =>
      .ok { firmwareRevision := device.FirmwareImage.Firmware.DisplayName
            manufacturer := "Lutron Electronics Co., Inc"
            model := device.ModelNumber
            name := String.intercalate " " device.FullyQualifiedName
            serialNumber := device.SerialNumber }
    | none => .error (.explicitError "Got bad response to bridge info request")

/-- `getDeviceInfo`: one device-list read of `/device`; the body must
carry the `Devices` discriminant, otherwise an explicit error. -/
def getDeviceInfo (request : String → JsOutcome Response) : JsOutcome (List Device) := do
  let raw ← request "/device"
  match raw.Body with
  | none => .error .typeError
  | some body =>
    match body.devicesField with
    | some devices => .ok devices
    | none => .error (.explicitError "got bad response to all device list request")

/-- `setBlindsTilt`: fire-and-forget write to
`device.LocalZones[0].href + '/commandprocessor'` with
`Tilt: Math.round(value)`. Indexing `LocalZones[0]` on a device with no
zones reads `.href` of `undefined`: a `TypeError`. The observable result
is the issued request. -/
def setBlindsTilt (device : Device) (value : ℚ) : JsOutcome IssuedRequest :=
  match device.LocalZones.head? with
  | none => .error .typeError
  | some zone =>
    .ok { kind := .CreateRequest
          href := zone.href ++ "/commandprocessor"
          command := { CommandType := "GoToTilt", Tilt := jsRound value } }

/-- `readBlindsTilt`: one status read of
`device.LocalZones[0].href + '/status'`; the source performs NO
discriminant check: it evaluates
`(resp.Body! as OneZoneStatus).ZoneStatus.Tilt` directly, so a body
without the `ZoneStatus` field crashes with a `TypeError` (reading
`.Tilt` of `undefined`) rather than an explicit error. -/
def readBlindsTilt (request : String → JsOutcome Response)
    (device : Device) : JsOutcome ℚ :=
  match device.LocalZones.head? with
  | none => .error .typeError
  | some zone => do
    let resp ← request (zone.href ++ "/status")
    match resp.Body with
    | none => .error .typeError
    | some body =>
      match body.zoneStatusField with
      | some zs => .ok zs.Tilt
      | none => .error .typeError

/-- `getButtonGroupFromDevice`: one read of
`device.ButtonGroups[0].href`; the body must carry the `ButtonGroup`
discriminant, otherwise `throw new Error('unable to get button group')`. -/
def getButtonGroupFromDevice (request : String → JsOutcome Response)
    (device : Device) : JsOutcome ButtonGroup :=
  match device.ButtonGroups.head? with
  | none => .error .typeError
  | some ref => do
    let raw ← request ref.href
    match raw.Body with
    | none => .error .typeError
    | some body =>
      match body.buttonGroupField with
      | some g => .ok g
      | none => .error (.explicitError "unable to get button group")

/-- The `.then` continuation attached to each per-button request inside
`getButtonsFromGroup`: extract `Button` or
`throw new Error('unable to get button')`. -/
def buttonFromResponse (r : JsOutcome Response) : JsOutcome Button := do
  let resp ← r
  match resp.Body with
  | none => .error .typeError
  | some body =>
    match body.buttonField with
    | some b => .ok b
    | none => .error (.explicitError "unable to get button")

/-- The timed settlements with an error outcome, paired with their
settle time. -/
def rejections {α : Type} (xs : List (ℕ × JsOutcome α)) : List (ℕ × JsError) :=
  xs.filterMap fun p =>
    match p.2 with
    | .error e => some (p.1, e)
    | .ok _ => none

/-- Of a nonempty list of timed rejections, the temporally first one
(ties broken by list position, matching same-tick scheduling order). -/
def earliestRejection : List (ℕ × JsError) → Option (ℕ × JsError)
  | [] => none
  | x :: xs => some (xs.foldl (fun acc y => if y.1 < acc.1 then y else acc) x)

/-- `Promise.all` over timed outcomes: if every input settles
successfully the result carries the values in INPUT order, whatever the
settle times; if any input rejects, the result rejects with the
temporally first rejection. -/
def promiseAll {α : Type} (xs : List (ℕ × JsOutcome α)) : JsOutcome (List α) :=
  match earliestRejection (rejections xs) with
  | some (_, e) => .error e
  | none =>
    .ok (xs.filterMap fun p =>
      match p.2 with
      | .ok v => some v
      | .error _ => none)

/-- `getButtonsFromGroup`: one read per button reference of the group,
issued concurrently (each with its own completion time supplied by the
transport model), each mapped through `buttonFromResponse`, joined with
`Promise.all`. -/
def getButtonsFromGroup (request : String → ℕ × JsOutcome Response)
    (bgroup : ButtonGroup) : JsOutcome (List Button) :=
  promiseAll (bgroup.Buttons.map fun b =>
    ((request b.href).1, buttonFromResponse (request b.href).2))

/-! ## Session lifecycle state machine

The timer / event-handler layer of `SmartBridge`. The state records what
a trace of the JavaScript object would observably do: whether a
`pingLooper` interval timer is pending, whether a `pingLoop` probe/timeout
race is in flight, how many `setTimeout` arms of the ping loop and how
many `client.close()` calls have happened, and the events emitted to the
emitter subscribers. Listener attachment flags are explicit because the
claims quantify over teardown never detaching them. -/

structure SessionState where
  bridgeID : String
  /-- a `pingLooper` timeout is currently pending (armed, not yet fired
  and not cleared) -/
  pingTimerArmed : Bool
  /-- a `pingLoop` race (probe vs ping timeout) has started and not yet
  settled; `Promise.race` settles at most once -/
  pingInFlight : Bool
  /-- total number of `setTimeout` calls made by `_setPingTimeout` -/
  pingTimersScheduled : ℕ
  /-- total number of `client.close()` invocations made by the session -/
  clientCloseCalls : ℕ
  /-- number of `disconnected` events emitted to the session subscribers -/
  emittedDisconnected : ℕ
  /-- the `unsolicited` events emitted to the session subscribers, in
  order, each carrying the bridge identifier and the relayed response -/
  emittedUnsolicited : List (String × Response)
  /-- the handler bound in the constructor on `client` `unsolicited` is
  still attached -/
  unsolicitedListenerAttached : Bool
  /-- the handler bound in the constructor on `client` `disconnected` is
  still attached -/
  disconnectListenerAttached : Bool
  deriving Repr, DecidableEq

namespace SessionState

/-- `_setPingTimeout`: store a fresh `setTimeout` handle in
`this.pingLooper`. -/
def setPingTimeout (s : SessionState) : SessionState :=
  { s with pingTimerArmed := true, pingTimersScheduled := s.pingTimersScheduled + 1 }

/-- `close()`: `clearTimeout(this.pingLooper); this.client.close();` —
and nothing else: no listener detach, no emit, no state flag. -/
def close (s : SessionState) : SessionState :=
  { s with pingTimerArmed := false, clientCloseCalls := s.clientCloseCalls + 1 }

/-- `_handleDisconnect()`: a debug log and `this.close()`. -/
def handleDisconnect (s : SessionState) : SessionState :=
  close s

/-- `_handleUnsolicited(response)`: emit
`this.emit('unsolicited', this.bridgeID, response)`. -/
def handleUnsolicited (s : SessionState) (r : Response) : SessionState :=
  { s with emittedUnsolicited := s.emittedUnsolicited ++ [(s.bridgeID, r)] }

/-- Whether teardown has run: the source has no state field, so entering
the Closed lifecycle state is identified with the transport close having
been invoked. -/
def isClosed (s : SessionState) : Bool := decide (0 < s.clientCloseCalls)

end SessionState

/-- `new SmartBridge(bridgeID, client)`: subscribe to the two client
notifications, then `_setPingTimeout()`. -/
def SmartBridge.new (bridgeID : String) : SessionState :=
  { bridgeID := bridgeID
    pingTimerArmed := true
    pingInFlight := false
    pingTimersScheduled := 1
    clientCloseCalls := 0
    emittedDisconnected := 0
    emittedUnsolicited := []
    unsolicitedListenerAttached := true
    disconnectListenerAttached := true }

/-- The asynchronous events a session reacts to. `probeSettles wins`
is the settlement of the `Promise.race` in `pingLoop`: `wins = true`
models the probe resolving before the ping timeout fires (the `then`
branch), `wins = false` the ping timeout firing first or the probe
rejecting (the `catch` branch). -/
inductive SessionEvent : Type
  | pingTimerFires
  | probeSettles (wins : Bool)
  | explicitClose
  | transportDisconnect
  | transportUnsolicited (r : Response)
  deriving Repr

/-- One step of the session: how `SmartBridge` reacts to each event.

* `pingTimerFires`: a pending `pingLooper` timeout fires, consuming the
  timer, and `pingLoop()` starts the probe/timeout race; a cleared timer
  never fires, so the event is a no-op when no timer is armed.
* `probeSettles true`: the `then` branch —
  `clearTimeout(this.pingLooper); this._setPingTimeout();`.
* `probeSettles false`: the `catch` branch — `this.client.close()`.
  A race settles at most once, so both are no-ops with no race in
  flight (a late settlement of an already-settled race is discarded).
* `explicitClose`: the public `close()`.
* `transportDisconnect`: the client fires `disconnected`, running
  `_handleDisconnect` while the constructor-bound handler is attached.
* `transportUnsolicited r`: the client fires `unsolicited`, running
  `_handleUnsolicited` while the constructor-bound handler is attached. -/
def step (s : SessionState) : SessionEvent → SessionState
  | .pingTimerFires =>
    if s.pingTimerArmed then
      { s with pingTimerArmed := false, pingInFlight := true }
    else s
  | .probeSettles wins =>
    if s.pingInFlight then
      let s1 := { s with pingInFlight := false }
      if wins then
        SessionState.setPingTimeout { s1 with pingTimerArmed := false }
      else
        { s1 with clientCloseCalls := s1.clientCloseCalls + 1 }
    else s
  | .explicitClose => SessionState.close s
  | .transportDisconnect =>
    if s.disconnectListenerAttached then SessionState.handleDisconnect s else s
  | .transportUnsolicited r =>
    if s.unsolicitedListenerAttached then SessionState.handleUnsolicited s r else s

/-- Run a session from construction through a list of events. -/
def runSession (bridgeID : String) (events : List SessionEvent) : SessionState :=
  events.foldl step (SmartBridge.new bridgeID)

/-- A session result has failed when it carries a thrown error or a
rejection rather than a value. -/
def jsFailed {α : Type} : JsOutcome α → Bool
  | .error _ => true
  | .ok _ => false

/-! ## Invariants of the session state machine -/

/-- No step changes the bridge identifier, detaches either
constructor-bound listener, or emits a `disconnected` event: no code path
of the class contains `this.emit('disconnected')` or any
`removeListener`. -/
theorem step_frame (s : SessionState) (e : SessionEvent) :
    (step s e).bridgeID = s.bridgeID ∧
    (step s e).unsolicitedListenerAttached = s.unsolicitedListenerAttached ∧
    (step s e).disconnectListenerAttached = s.disconnectListenerAttached ∧
    (step s e).emittedDisconnected = s.emittedDisconnected := by
  cases e with
  | pingTimerFires =>
    by_cases h : s.pingTimerArmed <;> simp [step, h]
  | probeSettles wins =>
    by_cases h : s.pingInFlight <;> cases wins <;>
      simp [step, h, SessionState.setPingTimeout]
  | explicitClose => simp [step, SessionState.close]
  | transportDisconnect =>
    by_cases h : s.disconnectListenerAttached <;>
      simp [step, h, SessionState.handleDisconnect, SessionState.close]
  | transportUnsolicited r =>
    by_cases h : s.unsolicitedListenerAttached <;>
      simp [step, h, SessionState.handleUnsolicited]

/-- The frame conditions of `step_frame`, carried through a whole event
trace by induction. -/
theorem foldl_step_frame (events : List SessionEvent) (s : SessionState) :
    ((events.foldl step s).bridgeID = s.bridgeID) ∧
    ((events.foldl step s).unsolicitedListenerAttached = s.unsolicitedListenerAttached) ∧
    ((events.foldl step s).disconnectListenerAttached = s.disconnectListenerAttached) ∧
    ((events.foldl step s).emittedDisconnected = s.emittedDisconnected) := by
  induction events generalizing s with
  | nil => simp
  | cons e es ih =>
    have hstep := step_frame s e
    have hrest := ih (step s e)
    simp only [List.foldl_cons]
    exact ⟨hrest.1.trans hstep.1,
      hrest.2.1.trans hstep.2.1,
      hrest.2.2.1.trans hstep.2.2.1,
      hrest.2.2.2.trans hstep.2.2.2⟩

/-- After any event trace from construction, the listeners are still
attached, the identifier is unchanged and no `disconnected` event has
ever been emitted. -/
theorem runSession_frame (bridgeID : String) (events : List SessionEvent) :
    (runSession bridgeID events).bridgeID = bridgeID ∧
    (runSession bridgeID events).unsolicitedListenerAttached = true ∧
    (runSession bridgeID events).disconnectListenerAttached = true ∧
    (runSession bridgeID events).emittedDisconnected = 0 := by
  have h := foldl_step_frame events (SmartBridge.new bridgeID)
  simpa [runSession, SmartBridge.new] using h

/-! ## Claims about the lifecycle -/

/-- Claim C1: after any event history, a Transport disconnect
notification does tear the session down (the transport close is
invoked), but the code emits the `disconnected` event to the session
subscribers ZERO times, not once: `_handleDisconnect` only calls
`close()`, and no code path of `SmartBridge` ever emits the
`disconnected` event declared in its own `SmartBridgeEvents` interface.
This refutes the claim that subscribers are notified exactly once. -/
theorem disconnected_notification_never_emitted (bridgeID : String)
    (events : List SessionEvent) :
    SessionState.isClosed (step (runSession bridgeID events) .transportDisconnect) = true ∧
    (step (runSession bridgeID events) .transportDisconnect).emittedDisconnected = 0 := by
  have h := runSession_frame bridgeID events
  constructor
  · simp only [step, h.2.2.1, if_true, SessionState.handleDisconnect, SessionState.close,
      SessionState.isClosed]
    simp
  · have := step_frame (runSession bridgeID events) .transportDisconnect
    rw [this.2.2.2, h.2.2.2]

/-- Claim C2 (counterexample): calling `close()` twice on a fresh session
invokes the transport `client.close()` twice, not exactly once — `close`
has no guard flag. -/
theorem close_twice_invokes_transport_close_twice :
    (SessionState.close (SessionState.close (SmartBridge.new "bridge-01"))).clientCloseCalls
      = 2 := rfl

/-- Claim C2 (amended): each call of `close()` invokes the transport
close exactly once more (so two calls invoke it twice); every call
clears the pending liveness timer (clearing an already-cleared timer is
a no-op, and the transport close is idempotent by the Transport
contract, so no resource is double-released); `close()` never schedules
a liveness timer, so no second timer is ever scheduled by a repeated
close; and no call of `close()` emits a `disconnected` notification. -/
theorem close_per_call_effects (s : SessionState) :
    (SessionState.close s).clientCloseCalls = s.clientCloseCalls + 1 ∧
    (SessionState.close s).pingTimerArmed = false ∧
    (SessionState.close s).pingTimersScheduled = s.pingTimersScheduled ∧
    (SessionState.close s).emittedDisconnected = s.emittedDisconnected := by
  simp [SessionState.close]

/-- Claim C3: for a probe cycle in flight, if the probe settles first
(within the ping timeout) the cycle schedules exactly one further timer,
leaves it armed, and does not close the session (the transport close
count and the closed predicate are unchanged); if the ping timeout fires
first or the probe rejects, the transport `client.close()` is invoked
and the session is closed, with no further cycle scheduled. -/
theorem liveness_probe_race (s : SessionState) (h : s.pingInFlight = true) :
    ((step s (.probeSettles true)).pingTimersScheduled = s.pingTimersScheduled + 1 ∧
     (step s (.probeSettles true)).pingTimerArmed = true ∧
     (step s (.probeSettles true)).clientCloseCalls = s.clientCloseCalls ∧
     SessionState.isClosed (step s (.probeSettles true)) = SessionState.isClosed s) ∧
    ((step s (.probeSettles false)).clientCloseCalls = s.clientCloseCalls + 1 ∧
     SessionState.isClosed (step s (.probeSettles false)) = true ∧
     (step s (.probeSettles false)).pingTimersScheduled = s.pingTimersScheduled) := by
  simp [step, h, SessionState.setPingTimeout, SessionState.isClosed]

/-- Witness for claim C3: a freshly constructed session whose interval
timer has fired has a probe cycle in flight; instantiating the race
theorem there. -/
theorem liveness_probe_race_witness :
    (step (SmartBridge.new "bridge-01") .pingTimerFires).pingInFlight = true ∧
    (((step (step (SmartBridge.new "bridge-01") .pingTimerFires) (.probeSettles true)).pingTimersScheduled
        = (step (SmartBridge.new "bridge-01") .pingTimerFires).pingTimersScheduled + 1 ∧
      (step (step (SmartBridge.new "bridge-01") .pingTimerFires) (.probeSettles true)).pingTimerArmed = true ∧
      (step (step (SmartBridge.new "bridge-01") .pingTimerFires) (.probeSettles true)).clientCloseCalls
        = (step (SmartBridge.new "bridge-01") .pingTimerFires).clientCloseCalls ∧
      SessionState.isClosed (step (step (SmartBridge.new "bridge-01") .pingTimerFires) (.probeSettles true))
        = SessionState.isClosed (step (SmartBridge.new "bridge-01") .pingTimerFires)) ∧
     ((step (step (SmartBridge.new "bridge-01") .pingTimerFires) (.probeSettles false)).clientCloseCalls
        = (step (SmartBridge.new "bridge-01") .pingTimerFires).clientCloseCalls + 1 ∧
      SessionState.isClosed (step (step (SmartBridge.new "bridge-01") .pingTimerFires) (.probeSettles false)) = true ∧
      (step (step (SmartBridge.new "bridge-01") .pingTimerFires) (.probeSettles false)).pingTimersScheduled
        = (step (SmartBridge.new "bridge-01") .pingTimerFires).pingTimersScheduled)) :=
  ⟨rfl, liveness_probe_race (step (SmartBridge.new "bridge-01") .pingTimerFires) rfl⟩

/-- Claim C4 (counterexample): a probe that is in flight when `close()`
runs and that then resolves within its timeout schedules a NEW liveness
timer after close (the scheduled count rises from 1 to 2 and a timer is
armed again), even though the session is closed — refuting that no new
liveness timer is ever scheduled after close. -/
theorem timer_scheduled_after_close_example :
    SessionState.isClosed
        (step (step (SmartBridge.new "bridge-01") .pingTimerFires) .explicitClose) = true ∧
    (step (step (SmartBridge.new "bridge-01") .pingTimerFires) .explicitClose).pingTimersScheduled = 1 ∧
    (step (step (step (SmartBridge.new "bridge-01") .pingTimerFires) .explicitClose)
        (.probeSettles true)).pingTimersScheduled = 2 ∧
    (step (step (step (SmartBridge.new "bridge-01") .pingTimerFires) .explicitClose)
        (.probeSettles true)).pingTimerArmed = true := by
  exact ⟨rfl, rfl, rfl, rfl⟩

/-- Claim C4 (amended): entering Closed cancels the pending liveness
timer, and an in-flight probe result after close causes no crash and no
`disconnected` emission — but it is not fully inert: a probe still in
flight at close that resolves within its timeout schedules exactly one
new liveness timer after close, and one that fails after close invokes
the (idempotent) transport close once more. Once the race has settled
it is in flight no longer, and any later settlement of it — such as the
ping-timeout rejection arriving after the probe already resolved — is
discarded: it changes nothing. -/
theorem closed_session_inflight_probe (s : SessionState) (h : s.pingInFlight = true) :
    (SessionState.close s).pingTimerArmed = false ∧
    (step (SessionState.close s) (.probeSettles true)).pingTimersScheduled
      = (SessionState.close s).pingTimersScheduled + 1 ∧
    (step (SessionState.close s) (.probeSettles true)).pingTimerArmed = true ∧
    (step (SessionState.close s) (.probeSettles true)).clientCloseCalls
      = (SessionState.close s).clientCloseCalls ∧
    (step (SessionState.close s) (.probeSettles false)).clientCloseCalls
      = (SessionState.close s).clientCloseCalls + 1 ∧
    (step (SessionState.close s) (.probeSettles false)).pingTimerArmed = false ∧
    (step (SessionState.close s) (.probeSettles false)).emittedDisconnected
      = (SessionState.close s).emittedDisconnected ∧
    (∀ w : Bool, (step (SessionState.close s) (.probeSettles w)).pingInFlight = false) ∧
    (∀ w w2 : Bool,
      step (step (SessionState.close s) (.probeSettles w)) (.probeSettles w2)
        = step (SessionState.close s) (.probeSettles w)) := by
  refine ⟨rfl, ?_, ?_, ?_, ?_, ?_, ?_, ?_, ?_⟩
  · simp [step, SessionState.close, SessionState.setPingTimeout, h]
  · simp [step, SessionState.close, SessionState.setPingTimeout, h]
  · simp [step, SessionState.close, SessionState.setPingTimeout, h]
  · simp [step, SessionState.close, SessionState.setPingTimeout, h]
  · simp [step, SessionState.close, SessionState.setPingTimeout, h]
  · simp [step, SessionState.close, SessionState.setPingTimeout, h]
  · intro w
    cases w <;> simp [step, SessionState.close, SessionState.setPingTimeout, h]
  · intro w w2
    cases w <;>
      simp [step, SessionState.close, SessionState.setPingTimeout, h]

/-- Witness for claim C4 (amended): instantiated at a fresh session whose
interval timer has fired, so that a probe cycle is in flight. -/
theorem closed_session_inflight_probe_witness :
    (step (SmartBridge.new "bridge-01") .pingTimerFires).pingInFlight = true ∧
    ((SessionState.close (step (SmartBridge.new "bridge-01") .pingTimerFires)).pingTimerArmed = false ∧
     (step (SessionState.close (step (SmartBridge.new "bridge-01") .pingTimerFires)) (.probeSettles true)).pingTimersScheduled
       = (SessionState.close (step (SmartBridge.new "bridge-01") .pingTimerFires)).pingTimersScheduled + 1 ∧
     (step (SessionState.close (step (SmartBridge.new "bridge-01") .pingTimerFires)) (.probeSettles true)).pingTimerArmed = true ∧
     (step (SessionState.close (step (SmartBridge.new "bridge-01") .pingTimerFires)) (.probeSettles true)).clientCloseCalls
       = (SessionState.close (step (SmartBridge.new "bridge-01") .pingTimerFires)).clientCloseCalls ∧
     (step (SessionState.close (step (SmartBridge.new "bridge-01") .pingTimerFires)) (.probeSettles false)).clientCloseCalls
       = (SessionState.close (step (SmartBridge.new "bridge-01") .pingTimerFires)).clientCloseCalls + 1 ∧
     (step (SessionState.close (step (SmartBridge.new "bridge-01") .pingTimerFires)) (.probeSettles false)).pingTimerArmed = false ∧
     (step (SessionState.close (step (SmartBridge.new "bridge-01") .pingTimerFires)) (.probeSettles false)).emittedDisconnected
       = (SessionState.close (step (SmartBridge.new "bridge-01") .pingTimerFires)).emittedDisconnected ∧
     (∀ w : Bool,
       (step (SessionState.close (step (SmartBridge.new "bridge-01") .pingTimerFires))
         (.probeSettles w)).pingInFlight = false) ∧
     (∀ w w2 : Bool,
       step (step (SessionState.close (step (SmartBridge.new "bridge-01") .pingTimerFires))
           (.probeSettles w)) (.probeSettles w2)
         = step (SessionState.close (step (SmartBridge.new "bridge-01") .pingTimerFires))
             (.probeSettles w))) :=
  ⟨rfl, closed_session_inflight_probe (step (SmartBridge.new "bridge-01") .pingTimerFires) rfl⟩

/-- Claim C10: after ANY event history from construction — including
histories containing explicit closes, disconnects and probe failures,
since teardown never detaches the constructor-bound listeners — an
unsolicited transport message makes the session emit exactly one
`unsolicited` event, appended to the trace, carrying the session bridge
identifier and the response unmodified. -/
theorem unsolicited_relayed_exactly_once (bridgeID : String)
    (events : List SessionEvent) (r : Response) :
    (step (runSession bridgeID events) (.transportUnsolicited r)).emittedUnsolicited
      = (runSession bridgeID events).emittedUnsolicited ++ [(bridgeID, r)] := by
  have h := runSession_frame bridgeID events
  simp [step, h.2.1, SessionState.handleUnsolicited, h.1]

/-! ## Helper lemmas for `Promise.all` -/

/-- On a list whose outcomes are all successes, `rejections` is empty. -/
theorem rejections_of_ok {α β : Type} (f : β → ℕ) (v : β → α) :
    ∀ l : List β, rejections (l.map fun b => (f b, (.ok (v b) : JsOutcome α))) = []
  | [] => rfl
  | _ :: xs => rejections_of_ok f v xs

/-- Collecting the values of a list of successes yields them in list
order. -/
theorem values_of_ok {α β : Type} (f : β → ℕ) (v : β → α) :
    ∀ l : List β, ((l.map fun b => (f b, (.ok (v b) : JsOutcome α))).filterMap fun p =>
      match p.2 with | .ok w => some w | .error _ => none) = l.map v
  | [] => rfl
  | x :: xs => congrArg (fun tail => v x :: tail) (values_of_ok f v xs)

/-- A `Promise.all` whose inputs all settle successfully resolves with
the values in input order, whatever the settle times. -/
theorem promiseAll_all_ok {α β : Type} (f : β → ℕ) (v : β → α) (l : List β) :
    promiseAll (l.map fun b => (f b, (.ok (v b) : JsOutcome α))) = .ok (l.map v) := by
  unfold promiseAll
  rw [rejections_of_ok f v l]
  exact congrArg Except.ok (values_of_ok f v l)

/-- A `Promise.all` one of whose inputs rejects, rejects. -/
theorem promiseAll_mem_error {α : Type} (xs : List (ℕ × JsOutcome α)) (t : ℕ)
    (e : JsError) (hmem : (t, (.error e : JsOutcome α)) ∈ xs) :
    jsFailed (promiseAll xs) = true := by
  have hne : rejections xs ≠ [] := by
    intro hnil
    have hn := List.filterMap_eq_nil_iff.mp hnil (t, (.error e : JsOutcome α)) hmem
    simp at hn
  rcases hr : rejections xs with _ | ⟨y, ys⟩
  · exact absurd hr hne
  · unfold promiseAll
    rw [hr]
    rfl

/-- The running minimum over copies of one timed rejection is that
rejection. -/
theorem foldl_min_const (t : ℕ) (e : JsError) :
    ∀ n : ℕ, (List.replicate n (t, e)).foldl
      (fun acc y => if y.1 < acc.1 then y else acc) (t, e) = (t, e)
  | 0 => rfl
  | n + 1 => by
    rw [List.replicate_succ, List.foldl_cons, if_neg (lt_irrefl t)]
    exact foldl_min_const t e n

/-- The rejections of identical timed failures are those failures. -/
theorem rejections_replicate_error {α : Type} (t : ℕ) (e : JsError) :
    ∀ n : ℕ, rejections (List.replicate n (t, (.error e : JsOutcome α)))
      = List.replicate n (t, e)
  | 0 => rfl
  | n + 1 => congrArg (List.cons (t, e)) (rejections_replicate_error t e n)

/-- A `Promise.all` whose inputs all reject at the same time with the
same error rejects with that error. -/
theorem promiseAll_replicate_error {α : Type} (t : ℕ) (e : JsError) (n : ℕ)
    (hn : n ≠ 0) :
    promiseAll (List.replicate n ((t, (.error e : JsOutcome α)))) = .error e := by
  cases n with
  | zero => exact absurd rfl hn
  | succ m =>
    unfold promiseAll
    rw [rejections_replicate_error t e (m + 1), List.replicate_succ]
    simp only [earliestRejection]
    rw [foldl_min_const t e m]

/-! ## Concrete fixtures used by counterexamples and witnesses -/

/-- A device with one zone and one button-group reference. -/
def tiltDevice : Device :=
  { FirmwareImage := { Firmware := { DisplayName := "fw-1.0" } }
    ModelNumber := "L-BDG2-WH"
    FullyQualifiedName := ["Living Room", "Shade"]
    SerialNumber := "SN12345678"
    LocalZones := [{ href := "/zone/5" }]
    ButtonGroups := [{ href := "/buttongroup/2" }] }

/-- A button group with three button references. -/
def demoGroup : ButtonGroup :=
  { Buttons := [{ href := "/button/1" }, { href := "/button/2" }, { href := "/button/3" }] }

/-- The resolved button each reference of `demoGroup` stands for. -/
def demoButton : String → Button := fun target => { Name := target }

/-- A transport in which every button read succeeds but the three
requests complete in REVERSE order of issue (the first-issued request
finishes last). -/
def demoButtonRequest : String → ℕ × JsOutcome Response := fun target =>
  (if target = "/button/1" then 30 else if target = "/button/2" then 20 else 10,
   .ok { Body := some (.oneButton (demoButton target)) })

/-- A transport in which the read of `/button/2` rejects while the other
button reads succeed. -/
def demoFailRequest : String → ℕ × JsOutcome Response := fun target =>
  if target = "/button/2" then (5, .error (.rejection "request failed"))
  else (10, .ok { Body := some (.oneButton (demoButton target)) })

/-! ## Claims about the Command Layer -/

/-- Claim C5 (counterexample): `readBlindsTilt` performs NO shape
validation. On a response whose body is list-shaped (so it lacks the
`ZoneStatus` discriminant), the source evaluates
`(resp.Body! as OneZoneStatus).ZoneStatus.Tilt`, reading `.Tilt` of
`undefined`: the result is the field-access crash modelled by
`JsError.typeError`, not the explicit shape-validation error the claim
requires for every listed operation. -/
theorem readBlindsTilt_crashes_on_list_shaped_body :
    readBlindsTilt (fun _ => .ok { Body := some (.multipleDevices []) }) tiltDevice
      = .error .typeError := rfl

/-- Claim C5 (amended): of the operations listed, `getBridgeInfo`,
`getDeviceInfo`, `getButtonGroupFromDevice` and `getButtonsFromGroup`
do fail with an explicit shape-validation error whenever the response
body lacks the one discriminant that operation expects — each operation
is proven for EVERY such body, including bodies carrying a different
discriminant, such as a list-shaped body delivered to `getBridgeInfo`;
`readBlindsTilt` does not — it has no discriminant check at all, and
any body lacking `ZoneStatus` makes it crash with a field access on
`undefined` (`typeError`), never a silently returned default value in
either case. -/
theorem shape_validation_by_operation
    (bDev bList bGroup bBtn bZone : MessageBody) (dev : Device) (g : ButtonGroup)
    (hdev : bDev.deviceField = none)
    (hdevs : bList.devicesField = none)
    (hgroup : bGroup.buttonGroupField = none)
    (hbutton : bBtn.buttonField = none)
    (hzone : bZone.zoneStatusField = none)
    (hzones : dev.LocalZones ≠ []) (hgroups : dev.ButtonGroups ≠ [])
    (hbuttons : g.Buttons ≠ []) :
    getBridgeInfo (fun _ => .ok { Body := some bDev })
      = .error (.explicitError "Got bad response to bridge info request") ∧
    getDeviceInfo (fun _ => .ok { Body := some bList })
      = .error (.explicitError "got bad response to all device list request") ∧
    getButtonGroupFromDevice (fun _ => .ok { Body := some bGroup }) dev
      = .error (.explicitError "unable to get button group") ∧
    getButtonsFromGroup (fun _ => (0, .ok { Body := some bBtn })) g
      = .error (.explicitError "unable to get button") ∧
    readBlindsTilt (fun _ => .ok { Body := some bZone }) dev = .error .typeError := by
  refine ⟨?_, ?_, ?_, ?_, ?_⟩
  · cases bDev with
    | oneDevice d => exact absurd hdev (by simp [MessageBody.deviceField])
    | multipleDevices ds => rfl
    | oneZoneStatus z => rfl
    | oneButtonGroup gg => rfl
    | oneButton btn => rfl
    | unrecognized => rfl
  · cases bList with
    | multipleDevices ds => exact absurd hdevs (by simp [MessageBody.devicesField])
    | oneDevice d => rfl
    | oneZoneStatus z => rfl
    | oneButtonGroup gg => rfl
    | oneButton btn => rfl
    | unrecognized => rfl
  · cases hbg : dev.ButtonGroups with
    | nil => exact absurd hbg hgroups
    | cons r rest =>
      unfold getButtonGroupFromDevice
      rw [hbg]
      cases bGroup with
      | oneButtonGroup gg => exact absurd hgroup (by simp [MessageBody.buttonGroupField])
      | oneDevice d => rfl
      | multipleDevices ds => rfl
      | oneZoneStatus z => rfl
      | oneButton btn => rfl
      | unrecognized => rfl
  · have hbf : buttonFromResponse (.ok { Body := some bBtn })
        = .error (.explicitError "unable to get button") := by
      cases bBtn with
      | oneButton btn => exact absurd hbutton (by simp [MessageBody.buttonField])
      | oneDevice d => rfl
      | multipleDevices ds => rfl
      | oneZoneStatus z => rfl
      | oneButtonGroup gg => rfl
      | unrecognized => rfl
    unfold getButtonsFromGroup
    rw [show (g.Buttons.map fun bref =>
        (((fun _ => ((0 : ℕ), (.ok { Body := some bBtn } : JsOutcome Response))) bref.href).1,
          buttonFromResponse ((fun _ => ((0 : ℕ), (.ok { Body := some bBtn } : JsOutcome Response))) bref.href).2))
        = g.Buttons.map fun _ =>
          ((0 : ℕ), (.error (.explicitError "unable to get button") : JsOutcome Button)) from
      List.map_congr_left fun a _ => by rw [hbf]]
    rw [List.map_const']
    exact promiseAll_replicate_error 0 _ g.Buttons.length
      (fun hlen => hbuttons (List.length_eq_zero.mp hlen))
  · cases hlz : dev.LocalZones with
    | nil => exact absurd hlz hzones
    | cons z zs =>
      unfold readBlindsTilt
      rw [hlz]
      cases bZone with
      | oneZoneStatus zst => exact absurd hzone (by simp [MessageBody.zoneStatusField])
      | oneDevice d => rfl
      | multipleDevices ds => rfl
      | oneButtonGroup gg => rfl
      | oneButton btn => rfl
      | unrecognized => rfl

/-- Witness for claim C5 (amended): the amended statement instantiated
at wrong-discriminant bodies — in particular the spec's flagship case,
a LIST-shaped body delivered to `getBridgeInfo`, which expected a
single-device shape — together with a single-device body to
`getDeviceInfo` and `getButtonGroupFromDevice`, a button-group body to
the per-button reads of `getButtonsFromGroup`, and a list-shaped body
to `readBlindsTilt`, on a device with one zone and one button-group
reference and a three-button group. -/
theorem shape_validation_by_operation_witness :
    ((MessageBody.multipleDevices [tiltDevice]).deviceField = none ∧
     (MessageBody.oneDevice tiltDevice).devicesField = none ∧
     (MessageBody.oneDevice tiltDevice).buttonGroupField = none ∧
     (MessageBody.oneButtonGroup demoGroup).buttonField = none ∧
     (MessageBody.multipleDevices []).zoneStatusField = none ∧
     tiltDevice.LocalZones ≠ [] ∧
     tiltDevice.ButtonGroups ≠ [] ∧
     demoGroup.Buttons ≠ []) ∧
    (getBridgeInfo (fun _ => .ok { Body := some (.multipleDevices [tiltDevice]) })
       = .error (.explicitError "Got bad response to bridge info request") ∧
     getDeviceInfo (fun _ => .ok { Body := some (.oneDevice tiltDevice) })
       = .error (.explicitError "got bad response to all device list request") ∧
     getButtonGroupFromDevice (fun _ => .ok { Body := some (.oneDevice tiltDevice) }) tiltDevice
       = .error (.explicitError "unable to get button group") ∧
     getButtonsFromGroup (fun _ => (0, .ok { Body := some (.oneButtonGroup demoGroup) })) demoGroup
       = .error (.explicitError "unable to get button") ∧
     readBlindsTilt (fun _ => .ok { Body := some (.multipleDevices []) }) tiltDevice
       = .error .typeError) :=
  ⟨⟨rfl, rfl, rfl, rfl, rfl, by decide, by decide, by decide⟩,
   shape_validation_by_operation (.multipleDevices [tiltDevice]) (.oneDevice tiltDevice)
     (.oneDevice tiltDevice) (.oneButtonGroup demoGroup) (.multipleDevices [])
     tiltDevice demoGroup rfl rfl rfl rfl rfl (by decide) (by decide) (by decide)⟩

/-- Claim C6: `getButtonsFromGroup` returns the resolved buttons in
exactly the order of the group button references, for EVERY assignment
of completion times to the underlying requests (the time component of
the transport model is unconstrained), whenever every reference
resolves to a single-button body. -/
theorem buttons_resolved_in_reference_order (request : String → ℕ × JsOutcome Response)
    (g : ButtonGroup) (resolved : String → Button)
    (h : ∀ ref ∈ g.Buttons,
      (request ref.href).2 = .ok { Body := some (.oneButton (resolved ref.href)) }) :
    getButtonsFromGroup request g = .ok (g.Buttons.map fun ref => resolved ref.href) := by
  unfold getButtonsFromGroup
  rw [show (g.Buttons.map fun b =>
      ((request b.href).1, buttonFromResponse (request b.href).2))
      = g.Buttons.map fun b =>
        ((fun b => (request b.href).1) b, (.ok ((fun b => resolved b.href) b) : JsOutcome Button)) from
    List.map_congr_left fun a ha => by rw [h a ha]; rfl]
  exact promiseAll_all_ok (fun b => (request b.href).1) (fun b => resolved b.href) g.Buttons

/-- Witness for claim C6: a three-button group whose requests complete
in reverse order of issue still resolves to the buttons in reference
order. -/
theorem buttons_resolved_in_reference_order_witness :
    (∀ ref ∈ demoGroup.Buttons,
      (demoButtonRequest ref.href).2 = .ok { Body := some (.oneButton (demoButton ref.href)) }) ∧
    getButtonsFromGroup demoButtonRequest demoGroup
      = .ok [demoButton "/button/1", demoButton "/button/2", demoButton "/button/3"] :=
  ⟨by decide,
   buttons_resolved_in_reference_order demoButtonRequest demoGroup demoButton (by decide)⟩

/-- Claim C7: if the per-button request of any one reference of the
group fails (its response rejects, lacks a body, or lacks the `Button`
discriminant), `getButtonsFromGroup` fails as a whole: its outcome is an
error, so no partial list of buttons is returned, regardless of what the
other requests do. -/
theorem buttons_all_or_nothing (request : String → ℕ × JsOutcome Response)
    (g : ButtonGroup) (ref : Href) (e : JsError)
    (hmem : ref ∈ g.Buttons)
    (hfail : buttonFromResponse (request ref.href).2 = .error e) :
    jsFailed (getButtonsFromGroup request g) = true := by
  unfold getButtonsFromGroup
  apply promiseAll_mem_error _ (request ref.href).1 e
  have hm : ((request ref.href).1, buttonFromResponse (request ref.href).2)
      ∈ g.Buttons.map fun b => ((request b.href).1, buttonFromResponse (request b.href).2) :=
    List.mem_map_of_mem _ hmem
  rwa [hfail] at hm

/-- Witness for claim C7: in a three-button group whose middle request
rejects while the outer two succeed, the whole operation fails. -/
theorem buttons_all_or_nothing_witness :
    (⟨"/button/2"⟩ : Href) ∈ demoGroup.Buttons ∧
    buttonFromResponse (demoFailRequest "/button/2").2 = .error (.rejection "request failed") ∧
    jsFailed (getButtonsFromGroup demoFailRequest demoGroup) = true :=
  ⟨by decide, rfl,
   buttons_all_or_nothing demoFailRequest demoGroup ⟨"/button/2"⟩ (.rejection "request failed")
     (by decide) rfl⟩

/-- Claim C8: for a device with at least one zone, `setBlindsTilt`
issues one `CreateRequest` to the first zone command endpoint whose
transmitted tilt is `Math.round` of the requested value; the rounded
value differs from the requested value by at most one half (it is a
nearest integer), and in particular `47.6` is transmitted as `48`. -/
theorem setBlindsTilt_rounds_to_nearest (dev : Device) (zone : Href)
    (hz : dev.LocalZones.head? = some zone) (value : ℚ) :
    setBlindsTilt dev value
      = .ok { kind := .CreateRequest
              href := zone.href ++ "/commandprocessor"
              command := { CommandType := "GoToTilt", Tilt := jsRound value } } ∧
    |(jsRound value : ℚ) - value| ≤ 1 / 2 ∧
    jsRound (47.6 : ℚ) = 48 := by
  refine ⟨?_, ?_, ?_⟩
  · unfold setBlindsTilt
    rw [hz]
  · have h1 : ((⌊value + 1 / 2⌋ : ℤ) : ℚ) ≤ value + 1 / 2 := Int.floor_le _
    have h2 : value + 1 / 2 < (⌊value + 1 / 2⌋ : ℚ) + 1 := Int.lt_floor_add_one _
    rw [jsRound, abs_le]
    constructor <;> linarith
  · rw [jsRound]
    norm_num

/-- Witness for claim C8: the rounding theorem instantiated at a device
with one zone and the value `47.6`. -/
theorem setBlindsTilt_rounds_to_nearest_witness :
    tiltDevice.LocalZones.head? = some ⟨"/zone/5"⟩ ∧
    (setBlindsTilt tiltDevice (47.6 : ℚ)
        = .ok { kind := .CreateRequest
                href := "/zone/5" ++ "/commandprocessor"
                command := { CommandType := "GoToTilt", Tilt := jsRound (47.6 : ℚ) } } ∧
     |(jsRound (47.6 : ℚ) : ℚ) - (47.6 : ℚ)| ≤ 1 / 2 ∧
     jsRound (47.6 : ℚ) = 48) :=
  ⟨rfl, setBlindsTilt_rounds_to_nearest tiltDevice ⟨"/zone/5"⟩ rfl (47.6 : ℚ)⟩

/-- Claim C9: on every single-device-shaped response, `getBridgeInfo`
returns the snapshot whose `name` is the device name components joined
by single spaces and whose `manufacturer` is the fixed literal
string, independent of the response (the equation holds with the same
literal for every device); the second conjunct instantiates the name
formatting at components `["Living Room", "Shade"]`. -/
theorem bridge_info_snapshot (d : Device) :
    getBridgeInfo (fun _ => .ok { Body := some (.oneDevice d) })
      = .ok { firmwareRevision := d.FirmwareImage.Firmware.DisplayName
              manufacturer := "Lutron Electronics Co., Inc"
              model := d.ModelNumber
              name := String.intercalate " " d.FullyQualifiedName
              serialNumber := d.SerialNumber } ∧
    getBridgeInfo (fun _ => .ok { Body := some (.oneDevice tiltDevice) })
      = .ok { firmwareRevision := "fw-1.0"
              manufacturer := "Lutron Electronics Co., Inc"
              model := "L-BDG2-WH"
              name := "Living Room Shade"
              serialNumber := "SN12345678" } :=
  ⟨rfl, rfl⟩

end LutronLeap
